import Mathlib

/-!
Shallow embedding of the nova-powervm PowerVM compute driver, covering:

* `nova_powervm/virt/powervm/tasks/network.py` — `state_ok_for_plug`,
  `PlugVifs.execute`;
* `nova_powervm/virt/powervm/mgmt.py` — `discover_vscsi_disk`;
* `nova_powervm/virt/powervm/driver.py` — `PowerVMDriver.spawn` flow
  construction, `_is_booted_from_volume`, `_extract_bdm`,
  `PowerVMDriver.destroy` error handling;
* the SSP disk adapter (`nova_powervm/virt/powervm/disk/ssp.py`), whose
  source module is absent from the provided sources (only its unit tests
  are present); its operations are modelled from the specification and
  checked against the behaviour its tests exercise.

Machine integers do not overflow in any modelled path, so `Nat`/`Int` are
used directly; fallible Python code is embedded with `Except`.
-/

/- ---------------------------------------------------------------------
   tasks/network.py
   --------------------------------------------------------------------- -/

/-- States of `pypowervm.wrappers.base_partition.LPARState` used by
`state_ok_for_plug`; all other states are collapsed into `OtherState`
carrying the raw string. -/
inductive LPARState
  | NOT_ACTIVATED
  | RUNNING
  | OtherState (s : String)
deriving DecidableEq, Repr

/-- States of `pypowervm.wrappers.base_partition.RMCState` used by
`state_ok_for_plug`. -/
inductive RMCState
  | ACTIVE
  | OtherRMC (s : String)
deriving DecidableEq, Repr

/-- The fields of an LPAR wrapper consulted by `state_ok_for_plug`. -/
structure LPARWrap where
  state : LPARState
  rmc_state : RMCState
deriving DecidableEq, Repr

/-- Embedding of `state_ok_for_plug` (tasks/network.py lines 37-44):
NOT_ACTIVATED is ok; RUNNING with RMC ACTIVE is ok; anything else is not. -/
def state_ok_for_plug (lpar_wrap : LPARWrap) : Bool :=
  if lpar_wrap.state = LPARState.NOT_ACTIVATED then
    true
  else if lpar_wrap.state = LPARState.RUNNING ∧
      lpar_wrap.rmc_state = RMCState.ACTIVE then
    true
  else
    false

/-- A Client Network Adapter wrapper: the fields used by `PlugVifs.execute`
and `PlugMgmtVif.execute`. -/
structure CNA where
  mac : String
  vswitch_uri : String
deriving DecidableEq, Repr

/-- A nova VIF dict from `network_info`: the fields used by
`PlugVifs.execute`. -/
structure VIF where
  address : String
  vif_id : String
deriving DecidableEq, Repr

/-- Errors raised by `PlugVifs.execute`. -/
inductive PlugErr
  | VirtualInterfaceCreateException
deriving DecidableEq, Repr

/-- Embedding of `PlugVifs.execute` (tasks/network.py lines 71-117).

`norm_mac` stands for `vm.norm_mac` (module `vm.py`, imported by the task
but not among the provided sources) and is passed in as a parameter;
`cna_w_list` is the result of `vm.get_cnas`, fetched once at the start.

The nested `for vif / for cna_w / break / else append` loop is embedded as
a left fold over `network_info`.  On success the task returns the
pre-fetch `cna_w_list` (the value provided as `vm_cnas`); the second
component records, in order, the VIFs for which `vm.crt_vif` was invoked. -/
def plug_vifs_execute (norm_mac : String → String) (lpar_wrap : LPARWrap)
    (cna_w_list : List CNA) (network_info : List VIF) :
    Except PlugErr (List CNA × List VIF) :=
  if ¬ state_ok_for_plug lpar_wrap then
    Except.error PlugErr.VirtualInterfaceCreateException
  else
    let crt_vifs := network_info.foldl
      (fun acc vif =>
        if cna_w_list.any (fun cna_w => norm_mac cna_w.mac == vif.address)
        then acc
        else acc ++ [vif])
      []
    Except.ok (cna_w_list, crt_vifs)

/- ---------------------------------------------------------------------
   mgmt.py
   --------------------------------------------------------------------- -/

/-- The client adapter of a VSCSI mapping: only `slot_number` is used. -/
structure ClientAdapter where
  slot_number : Nat
deriving DecidableEq, Repr

/-- Backing storage of a VSCSI mapping: only `udid` is used. -/
structure BackingStorage where
  udid : String
deriving DecidableEq, Repr

/-- A `pypowervm.wrappers.virtual_io_server.VSCSIMapping`, restricted to
the fields `discover_vscsi_disk` reads. -/
structure VSCSIMapping where
  client_adapter : ClientAdapter
  backing_storage : BackingStorage
deriving DecidableEq, Repr

/-- An entry of `/dev/disk/by-id/`: its file name and the real path its
symlink resolves to (`os.path.realpath`). -/
structure DiskEntry where
  entry_name : String
  realpath : String
deriving DecidableEq, Repr

/-- Python `s[-32:]`: the last 32 characters of a string (the whole string
when it is shorter). -/
def last32 (s : String) : String :=
  String.mk (s.data.drop (s.data.length - 32))

/-- Python `s.endswith(suf)`, computed on the character lists. -/
def ends_with (s suf : String) : Bool :=
  suf.data.isPrefixOf (s.data.drop (s.data.length - suf.data.length))

/-- Outcome of `discover_vscsi_disk`: the Linux slot whose SCSI host bus
was scanned, and either the resolved device path or the error carrying
the number of `/dev/disk/by-id` matches found. -/
structure DiscoverOut where
  scanned_slot : Nat
  result : Except Nat String
deriving Repr

/-- Embedding of `discover_vscsi_disk` (mgmt.py lines 54-104).  The
directory `/dev/disk/by-id` is passed in as the list `by_id_entries`; the
glob `'*' + udid` keeps the entries whose name ends with the UDID suffix.
`Except.error n` stands for `UniqueDiskDiscoveryException` with `n` the
count of matches found. -/
def discover_vscsi_disk (mapping : VSCSIMapping)
    (by_id_entries : List DiskEntry) : DiscoverOut :=
  let lslot := 0x30000000 ||| mapping.client_adapter.slot_number
  let udid := last32 mapping.backing_storage.udid
  let disks := by_id_entries.filter (fun e => ends_with e.entry_name udid)
  match disks with
  | [d] => { scanned_slot := lslot, result := Except.ok d.realpath }
  | _ => { scanned_slot := lslot, result := Except.error disks.length }

/- ---------------------------------------------------------------------
   Theorems: C6, C10 (first batch; more claims below)
   --------------------------------------------------------------------- -/

/-- C6: `PlugVifs.execute` raises `VirtualInterfaceCreateException` (and
hence creates no VIF) exactly when the LPAR is neither NOT_ACTIVATED nor
RUNNING-with-RMC-ACTIVE; in exactly those two states it proceeds. -/
theorem plug_vifs_state_gate (norm_mac : String → String)
    (lpar_wrap : LPARWrap) (cna_w_list : List CNA)
    (network_info : List VIF) :
    (plug_vifs_execute norm_mac lpar_wrap cna_w_list network_info =
        Except.error PlugErr.VirtualInterfaceCreateException ↔
      ¬ (lpar_wrap.state = LPARState.NOT_ACTIVATED ∨
        (lpar_wrap.state = LPARState.RUNNING ∧
          lpar_wrap.rmc_state = RMCState.ACTIVE))) ∧
    ((lpar_wrap.state = LPARState.NOT_ACTIVATED ∨
        (lpar_wrap.state = LPARState.RUNNING ∧
          lpar_wrap.rmc_state = RMCState.ACTIVE)) →
      ∃ out, plug_vifs_execute norm_mac lpar_wrap cna_w_list network_info =
        Except.ok out) := by
  unfold plug_vifs_execute state_ok_for_plug
  by_cases h1 : lpar_wrap.state = LPARState.NOT_ACTIVATED
  · simp [h1]
  · by_cases h2 : lpar_wrap.state = LPARState.RUNNING ∧
        lpar_wrap.rmc_state = RMCState.ACTIVE
    · simp [h1, h2]
    · simp [h1, h2]

/-- C6 witness: concrete evaluation at a RUNNING/ACTIVE LPAR. -/
theorem plug_vifs_state_gate_witness :
    ∃ out, plug_vifs_execute id
      { state := LPARState.RUNNING, rmc_state := RMCState.ACTIVE } [] [] =
      Except.ok out :=
  (plug_vifs_state_gate id
    { state := LPARState.RUNNING, rmc_state := RMCState.ACTIVE } [] []).2
    (Or.inr ⟨rfl, rfl⟩)

/-- C10: `discover_vscsi_disk` scans the bus at Linux slot
`0x30000000 ||| slot_number`, matches `/dev/disk/by-id` entries by the
last 32 characters of the mapping's backing-storage UDID, fails exactly
when the number of matches differs from one, and otherwise returns the
resolved real path of the unique match. -/
theorem discover_vscsi_disk_spec (mapping : VSCSIMapping)
    (by_id_entries : List DiskEntry) :
    (discover_vscsi_disk mapping by_id_entries).scanned_slot =
      0x30000000 ||| mapping.client_adapter.slot_number ∧
    ((∃ n, (discover_vscsi_disk mapping by_id_entries).result =
        Except.error n) ↔
      (by_id_entries.filter
        (fun e => ends_with e.entry_name
          (last32 mapping.backing_storage.udid))).length ≠ 1) ∧
    (∀ d, by_id_entries.filter
        (fun e => ends_with e.entry_name
          (last32 mapping.backing_storage.udid)) = [d] →
      (discover_vscsi_disk mapping by_id_entries).result =
        Except.ok d.realpath) := by
  unfold discover_vscsi_disk
  cases hd : by_id_entries.filter
      (fun e => ends_with e.entry_name
        (last32 mapping.backing_storage.udid)) with
  | nil => simp [hd]
  | cons a tl =>
    cases tl with
    | nil => simp [hd]
    | cons b tl2 => simp [hd]

/-- C10 witness: a single matching entry among two, at slot 5. -/
theorem discover_vscsi_disk_spec_witness :
    (discover_vscsi_disk
      { client_adapter := { slot_number := 5 },
        backing_storage := { udid := "27cafe" } }
      [{ entry_name := "scsi-xyz27cafe", realpath := "/dev/sda" },
       { entry_name := "scsi-other", realpath := "/dev/sdb" }]).result =
      Except.ok "/dev/sda" :=
  (discover_vscsi_disk_spec
    { client_adapter := { slot_number := 5 },
      backing_storage := { udid := "27cafe" } }
    [{ entry_name := "scsi-xyz27cafe", realpath := "/dev/sda" },
     { entry_name := "scsi-other", realpath := "/dev/sdb" }]).2.2
    { entry_name := "scsi-xyz27cafe", realpath := "/dev/sda" } (by decide)

/- ---------------------------------------------------------------------
   Theorems: C8, C9 (PlugVifs.execute success path)
   --------------------------------------------------------------------- -/

/-- Folding the trim loop of `PlugVifs.execute` with an accumulator is a
filter by the negated skip condition. -/
theorem foldl_skip_append_eq_filter {α : Type} (p : α → Bool)
    (l acc : List α) :
    l.foldl (fun a x => if p x then a else a ++ [x]) acc =
      acc ++ l.filter (fun x => ! p x) := by
  induction l generalizing acc with
  | nil => simp
  | cons x xs ih =>
    by_cases h : p x
    · simp [h, ih]
    · simp [h, ih, List.filter_cons]

/-- On an LPAR in an acceptable state, `PlugVifs.execute` returns the
pre-fetched CNA list and creates exactly the VIFs that match no existing
CNA (helper equation shared by the success-path theorems). -/
theorem plug_vifs_execute_ok_eq (norm_mac : String → String)
    (lpar_wrap : LPARWrap) (cna_w_list : List CNA)
    (network_info : List VIF)
    (hok : state_ok_for_plug lpar_wrap = true) :
    plug_vifs_execute norm_mac lpar_wrap cna_w_list network_info =
      Except.ok (cna_w_list,
        network_info.filter (fun vif =>
          ! cna_w_list.any (fun cna_w => norm_mac cna_w.mac == vif.address))) := by
  unfold plug_vifs_execute
  rw [foldl_skip_append_eq_filter]
  simp [hok]

/-- C9: `PlugVifs.execute` creates exactly those VIFs of `network_info`
whose address equals the normalized MAC of no existing CNA of the VM;
matching VIFs are skipped, so plugging an already-plugged set creates
nothing. -/
theorem plug_vifs_dedupe (norm_mac : String → String)
    (lpar_wrap : LPARWrap) (cna_w_list : List CNA)
    (network_info : List VIF)
    (hok : state_ok_for_plug lpar_wrap = true) :
    plug_vifs_execute norm_mac lpar_wrap cna_w_list network_info =
      Except.ok (cna_w_list,
        network_info.filter (fun vif =>
          ! cna_w_list.any (fun cna_w => norm_mac cna_w.mac == vif.address))) ∧
    ((∀ vif ∈ network_info, ∃ cna_w ∈ cna_w_list,
        norm_mac cna_w.mac = vif.address) →
      plug_vifs_execute norm_mac lpar_wrap cna_w_list network_info =
        Except.ok (cna_w_list, [])) := by
  refine ⟨plug_vifs_execute_ok_eq norm_mac lpar_wrap cna_w_list network_info hok, ?_⟩
  intro hall
  rw [plug_vifs_execute_ok_eq norm_mac lpar_wrap cna_w_list network_info hok]
  have hnil : network_info.filter (fun vif =>
      ! cna_w_list.any (fun cna_w => norm_mac cna_w.mac == vif.address)) = [] := by
    rw [List.filter_eq_nil_iff]
    intro vif hv
    obtain ⟨cna_w, hcna, heq⟩ := hall vif hv
    have hany : cna_w_list.any
        (fun cna_w => norm_mac cna_w.mac == vif.address) = true :=
      List.any_eq_true.mpr ⟨cna_w, hcna, beq_iff_eq.mpr heq⟩
    simp [hany]
  rw [hnil]

/-- C9 witness: one already-plugged VIF (matching CNA mac), one new. -/
theorem plug_vifs_dedupe_witness :
    plug_vifs_execute id
      { state := LPARState.NOT_ACTIVATED, rmc_state := RMCState.ACTIVE }
      [{ mac := "aa:bb", vswitch_uri := "u" }]
      [{ address := "aa:bb", vif_id := "1" },
       { address := "cc:dd", vif_id := "2" }] =
      Except.ok ([{ mac := "aa:bb", vswitch_uri := "u" }],
        [{ address := "cc:dd", vif_id := "2" }]) := by
  have h := (plug_vifs_dedupe id
    { state := LPARState.NOT_ACTIVATED, rmc_state := RMCState.ACTIVE }
    [{ mac := "aa:bb", vswitch_uri := "u" }]
    [{ address := "aa:bb", vif_id := "1" },
     { address := "cc:dd", vif_id := "2" }] (by decide)).1
  rw [h]
  rfl

/-- C8: the `vm_cnas` value provided by `PlugVifs.execute` is the CNA list
fetched before any VIF creation in that execution; a CNA created by the
execution itself (one whose normalized MAC is the address of a created
VIF) is not contained in the returned list. -/
theorem plug_vifs_provides_prefetched_cnas (norm_mac : String → String)
    (crt_cna : VIF → CNA) (lpar_wrap : LPARWrap) (cna_w_list : List CNA)
    (network_info : List VIF)
    (hok : state_ok_for_plug lpar_wrap = true)
    (hcrt : ∀ v, norm_mac (crt_cna v).mac = v.address) :
    ∀ cnas crt_vifs,
      plug_vifs_execute norm_mac lpar_wrap cna_w_list network_info =
        Except.ok (cnas, crt_vifs) →
      cnas = cna_w_list ∧ ∀ vif ∈ crt_vifs, crt_cna vif ∉ cna_w_list := by
  intro cnas crt_vifs hrun
  rw [plug_vifs_execute_ok_eq norm_mac lpar_wrap cna_w_list network_info hok]
    at hrun
  have hpair := Except.ok.inj hrun
  have hc : cnas = cna_w_list := (congrArg Prod.fst hpair).symm
  have hv : crt_vifs = network_info.filter (fun vif =>
      ! cna_w_list.any (fun cna_w => norm_mac cna_w.mac == vif.address)) :=
    (congrArg Prod.snd hpair).symm
  refine ⟨hc, ?_⟩
  intro vif hvif hmem
  subst hv
  have hno := List.of_mem_filter hvif
  simp only [Bool.not_eq_true', List.any_eq_false] at hno
  have := hno (crt_cna vif) hmem
  exact this (beq_iff_eq.mpr (hcrt vif))

/-- C8 witness: with an identity normalizer and a canonical CNA builder,
the returned list is the pre-fetched one and excludes the created CNA. -/
theorem plug_vifs_provides_prefetched_cnas_witness :
    ([{ mac := "aa:bb", vswitch_uri := "u" }] : List CNA) =
      [{ mac := "aa:bb", vswitch_uri := "u" }] ∧
    ∀ vif ∈ [VIF.mk "cc:dd" "2"],
      CNA.mk vif.address "w" ∉ [CNA.mk "aa:bb" "u"] := by
  have h := plug_vifs_provides_prefetched_cnas id
    (fun v => CNA.mk v.address "w")
    { state := LPARState.NOT_ACTIVATED, rmc_state := RMCState.ACTIVE }
    [CNA.mk "aa:bb" "u"]
    [VIF.mk "aa:bb" "1", VIF.mk "cc:dd" "2"]
    (by decide) (fun v => rfl)
    [CNA.mk "aa:bb" "u"] [VIF.mk "cc:dd" "2"]
  exact h (by rw [plug_vifs_execute_ok_eq id _ _ _ (by decide)]; rfl)

/- ---------------------------------------------------------------------
   driver.py — spawn flow construction (C5)
   --------------------------------------------------------------------- -/

/-- The connection info of a block device mapping entry; only
`driver_volume_type` is read while building the flow. -/
structure ConnInfo where
  driver_volume_type : String
deriving DecidableEq, Repr

/-- A nova block device mapping entry (DriverVolumeBlockDevice): the
fields consulted by `spawn` and `_is_booted_from_volume`. -/
structure BDM where
  boot_index : Option Int
  connection_info : ConnInfo
deriving DecidableEq, Repr

/-- A nova `block_device_info` dict; `block_device_mapping` may itself be
absent/None. -/
structure BlockDeviceInfo where
  block_device_mapping : Option (List BDM)
deriving DecidableEq, Repr

/-- Embedding of nova `virt.driver.block_device_info_get_mapping`: the
mapping list, with `None` at either level collapsing to `[]`. -/
def block_device_info_get_mapping : Option BlockDeviceInfo → List BDM
  | none => []
  | some bdi => bdi.block_device_mapping.getD []

/-- Embedding of nova `block_device.get_root_bdm`: the first entry whose
`boot_index` is 0, if any. -/
def get_root_bdm (bdms : List BDM) : Option BDM :=
  bdms.find? (fun bdm => bdm.boot_index == some 0)

/-- Embedding of `PowerVMDriver._is_booted_from_volume` (driver.py lines
266-278): true exactly when the mapping list has a root device. -/
def is_booted_from_volume (block_device_info : Option BlockDeviceInfo) :
    Bool :=
  (get_root_bdm (block_device_info_get_mapping block_device_info)).isSome

/-- Embedding of `PowerVMDriver._extract_bdm` (driver.py lines 987-1024):
`[]` for a missing dict, otherwise the stored `block_device_mapping`
value (which may be Python None, kept here as `Option`). -/
def extract_bdm : Option BlockDeviceInfo → Option (List BDM)
  | none => some []
  | some bdi => bdi.block_device_mapping

/-- The tasks `PowerVMDriver.spawn` can add to its linear flow, in the
roles they play; `ConnectVolume` carries the entry's connection info and
`SaveBDM` the entry itself, as in the source. -/
inductive SpawnTask
  | CreateLPAR
  | PlugVifsTask
  | PlugMgmtVifTask
  | CreateDiskForImg
  | ConnectDisk
  | ConnectVolume (conn_info : ConnInfo)
  | SaveBDM (bdm : BDM)
  | CreateAndConnectCfgDrive
  | PowerOn
deriving DecidableEq, Repr

/-- Embedding of the flow built by `PowerVMDriver.spawn` (driver.py lines
209-264): each `flow.add` appends one task; `configdrive_required` stands
for `configdrive.required_by(instance)`. -/
def spawn_flow (block_device_info : Option BlockDeviceInfo)
    (configdrive_required : Bool) : List SpawnTask :=
  let flow : List SpawnTask := []
  let flow := flow ++ [SpawnTask.CreateLPAR]
  let flow := flow ++ [SpawnTask.PlugVifsTask]
  let flow := flow ++ [SpawnTask.PlugMgmtVifTask]
  let flow :=
    if ¬ is_booted_from_volume block_device_info then
      flow ++ [SpawnTask.CreateDiskForImg] ++ [SpawnTask.ConnectDisk]
    else flow
  let flow :=
    match extract_bdm block_device_info with
    | none => flow
    | some bdms =>
      bdms.foldl
        (fun f bdm =>
          f ++ [SpawnTask.ConnectVolume bdm.connection_info]
            ++ [SpawnTask.SaveBDM bdm])
        flow
  let flow :=
    if configdrive_required then
      flow ++ [SpawnTask.CreateAndConnectCfgDrive]
    else flow
  flow ++ [SpawnTask.PowerOn]

/-- Folding the per-BDM additions over a starting flow appends the
flattened per-entry pairs. -/
theorem foldl_bdm_append (bdms : List BDM) (flow : List SpawnTask) :
    bdms.foldl
      (fun f bdm =>
        f ++ [SpawnTask.ConnectVolume bdm.connection_info,
          SpawnTask.SaveBDM bdm])
      flow =
    flow ++ bdms.flatMap
      (fun bdm => [SpawnTask.ConnectVolume bdm.connection_info,
        SpawnTask.SaveBDM bdm]) := by
  induction bdms generalizing flow with
  | nil => simp
  | cons b bs ih =>
    rw [List.foldl_cons, ih]
    simp

/-- C5: the spawn flow is linear and in fixed order — create LPAR, plug
VIFs, plug the management VIF, then (only when not booted from volume)
create and connect the image boot disk, then per BDM entry connect the
volume and save the BDM, then the config drive when required, with power
on as the last step. -/
theorem spawn_flow_order (block_device_info : Option BlockDeviceInfo)
    (configdrive_required : Bool) :
    spawn_flow block_device_info configdrive_required =
      [SpawnTask.CreateLPAR, SpawnTask.PlugVifsTask,
        SpawnTask.PlugMgmtVifTask] ++
      (if is_booted_from_volume block_device_info then []
        else [SpawnTask.CreateDiskForImg, SpawnTask.ConnectDisk]) ++
      ((extract_bdm block_device_info).getD []).flatMap
        (fun bdm => [SpawnTask.ConnectVolume bdm.connection_info,
          SpawnTask.SaveBDM bdm]) ++
      (if configdrive_required then [SpawnTask.CreateAndConnectCfgDrive]
        else []) ++
      [SpawnTask.PowerOn] ∧
    (spawn_flow block_device_info configdrive_required).getLast? =
      some SpawnTask.PowerOn := by
  have hmain : spawn_flow block_device_info configdrive_required =
      [SpawnTask.CreateLPAR, SpawnTask.PlugVifsTask,
        SpawnTask.PlugMgmtVifTask] ++
      (if is_booted_from_volume block_device_info then []
        else [SpawnTask.CreateDiskForImg, SpawnTask.ConnectDisk]) ++
      ((extract_bdm block_device_info).getD []).flatMap
        (fun bdm => [SpawnTask.ConnectVolume bdm.connection_info,
          SpawnTask.SaveBDM bdm]) ++
      (if configdrive_required then [SpawnTask.CreateAndConnectCfgDrive]
        else []) ++
      [SpawnTask.PowerOn] := by
    unfold spawn_flow
    cases hx : extract_bdm block_device_info with
    | none =>
      by_cases hb : is_booted_from_volume block_device_info <;>
        by_cases hc : configdrive_required <;>
          simp [hx, hb, hc, List.append_assoc]
    | some bdms =>
      by_cases hb : is_booted_from_volume block_device_info <;>
        by_cases hc : configdrive_required <;>
          simp [hx, hb, hc, foldl_bdm_append, List.append_assoc]
  refine ⟨hmain, ?_⟩
  rw [hmain]
  rw [List.getLast?_append]
  rfl

/- ---------------------------------------------------------------------
   driver.py — destroy error handling (C7)
   --------------------------------------------------------------------- -/

/-- Exceptions that can escape the destroy flow: nova's
`InstanceNotFound`, a pypowervm `HttpError` (with the response status and
request path consulted by `destroy`), or any other error. -/
inductive FlowErr
  | InstanceNotFound
  | HttpError (status : Nat) (reqpath : String)
  | OtherErr (s : String)
deriving DecidableEq, Repr

/-- The suffix of `l` after the first occurrence of `pat`, when `pat`
occurs in `l` as a contiguous sublist. -/
def after_first (pat : List Char) : List Char → Option (List Char)
  | [] =>
    if pat.isPrefixOf ([] : List Char) then some [] else none
  | c :: rest =>
    if pat.isPrefixOf (c :: rest) then some ((c :: rest).drop pat.length)
    else after_first pat rest

/-- One line matches the regular expression
`/ManagedSystem/.*/LogicalPartition/.*-.*-.*-.*-.*`: it contains
`/ManagedSystem/`, later `/LogicalPartition/`, and at least four hyphens
after that. -/
def line_matches_lpar_pat (l : List Char) : Bool :=
  match after_first ("/ManagedSystem/".data) l with
  | none => false
  | some rest =>
    match after_first ("/LogicalPartition/".data) rest with
    | none => false
    | some rest2 => Nat.ble 4 (rest2.count (Char.ofNat 45))

/-- Embedding of `re.search` for the pattern used by `destroy` (driver.py
line 366).  Since `.` does not match a newline, the whole match lies on
one newline-delimited segment, and `re.search` asks for any such
segment. -/
def re_search_lpar (s : String) : Bool :=
  (s.data.splitOn (Char.ofNat 10)).any line_matches_lpar_pat

/-- Embedding of the exception handling of `PowerVMDriver.destroy`
(driver.py lines 348-373).  `resize_reverting` stands for
`instance.task_state == task_states.RESIZE_REVERTING`; `flow_result` is
the outcome of building and running the destroy flow (including
`vm.get_pvm_uuid`).  `Except.ok ()` is a normal return. -/
def destroy_handle (resize_reverting : Bool)
    (flow_result : Except FlowErr Unit) : Except FlowErr Unit :=
  if resize_reverting then Except.ok ()
  else
    match flow_result with
    | Except.ok () => Except.ok ()
    | Except.error FlowErr.InstanceNotFound => Except.ok ()
    | Except.error (FlowErr.HttpError status reqpath) =>
      if status = 404 ∧ re_search_lpar reqpath = true then Except.ok ()
      else Except.error (FlowErr.HttpError status reqpath)
    | Except.error (FlowErr.OtherErr s) =>
      Except.error (FlowErr.OtherErr s)

/-- C7: `destroy` returns normally when the flow raises
`InstanceNotFound`, and when it raises an `HttpError` with status 404
whose request path matches the LogicalPartition pattern; every other
`HttpError` propagates. -/
theorem destroy_swallows_not_found :
    destroy_handle false (Except.error FlowErr.InstanceNotFound) =
      Except.ok () ∧
    (∀ reqpath, re_search_lpar reqpath = true →
      destroy_handle false (Except.error (FlowErr.HttpError 404 reqpath)) =
        Except.ok ()) ∧
    (∀ status reqpath,
      status ≠ 404 ∨ re_search_lpar reqpath = false →
      destroy_handle false (Except.error (FlowErr.HttpError status reqpath)) =
        Except.error (FlowErr.HttpError status reqpath)) := by
  refine ⟨rfl, ?_, ?_⟩
  · intro reqpath h
    simp [destroy_handle, h]
  · intro status reqpath h
    rcases h with h | h
    · simp [destroy_handle, h]
    · simp [destroy_handle, h]

/-- C7 witness: a 404 on a LogicalPartition path is swallowed; a 500 on
the same path propagates. -/
theorem destroy_swallows_not_found_witness :
    destroy_handle false (Except.error (FlowErr.HttpError 404
      "/rest/api/uom/ManagedSystem/h1/LogicalPartition/0a-1b-2c-3d-4e")) =
      Except.ok () ∧
    destroy_handle false (Except.error (FlowErr.HttpError 500
      "/rest/api/uom/ManagedSystem/h1/LogicalPartition/0a-1b-2c-3d-4e")) =
      Except.error (FlowErr.HttpError 500
        "/rest/api/uom/ManagedSystem/h1/LogicalPartition/0a-1b-2c-3d-4e") :=
  ⟨destroy_swallows_not_found.2.1
      "/rest/api/uom/ManagedSystem/h1/LogicalPartition/0a-1b-2c-3d-4e"
      (by decide),
    destroy_swallows_not_found.2.2 500
      "/rest/api/uom/ManagedSystem/h1/LogicalPartition/0a-1b-2c-3d-4e"
      (Or.inl (by decide))⟩

/- ---------------------------------------------------------------------
   SSP disk adapter (disk/ssp.py) — modelled from the spec.

   The module `nova_powervm/virt/powervm/disk/ssp.py` is not among the
   provided sources; only its unit tests are.  Per the spec, its logic is
   "cluster discovery, shared-LU clone/dedupe-by-reference-count,
   VIOS-mapping iteration/failover — a handful of linear lookups and
   reference-count decrements against wrapper objects".  The definitions
   below model that logic from the spec's words, consistent with the
   scenarios the in-tree tests exercise.
   --------------------------------------------------------------------- -/

/-- Modelled from the spec: the type of a Logical Unit in a Shared
Storage Pool (`pypowervm.wrappers.storage.LUType`), as used by the
missing `disk/ssp.py` — `Disk` for boot disks, `Image` for shared image
LUs. -/
inductive LUType
  | Disk
  | Image
  | OtherType (s : String)
deriving DecidableEq, Repr

/-- Modelled from the spec: a Logical Unit ("a storage volume within an
SSP"), restricted to the fields the missing `disk/ssp.py` reads — name,
UDID, type, and the UDID of the image LU it was cloned from (absent for
image LUs). -/
structure LU where
  name : String
  udid : String
  lu_type : LUType
  cloned_from_udid : Option String
deriving DecidableEq, Repr

/-- Modelled from the spec: PowerVM UDIDs carry a two-character type
prefix, so the clone linkage of the missing `disk/ssp.py` compares UDIDs
with that prefix stripped (the adapter tests link a disk LU with
cloned-from UDID `yy…` to an image LU with UDID `xx…`). -/
def udid_root (u : String) : String :=
  String.mk (u.data.drop 2)

/-- Modelled from the spec: the "shared-LU clone" linkage — a disk LU is
a clone of an image LU when its cloned-from UDID matches the image LU's
UDID apart from the type prefix. -/
def is_clone_of (dsk img : LU) : Bool :=
  match dsk.cloned_from_udid with
  | none => false
  | some cf => udid_root cf == udid_root img.udid

/-- Modelled from the spec: the linear removal lookup of the missing
`disk/ssp.py` — drop from the SSP's LU list every LU whose UDID is that
of an LU to delete. -/
def remove_named_lus (lus removals : List LU) : List LU :=
  lus.filter (fun lu => ! removals.any (fun r => r.udid == lu.udid))

/-- Modelled from the spec: the reference count of an image LU — the
number of disk LUs in the list cloned from it. -/
def image_ref_count (lus : List LU) (img : LU) : Nat :=
  lus.countP (fun d => decide (d.lu_type = LUType.Disk) && is_clone_of d img)

/-- Modelled from the spec: `SSPDiskAdapter.delete_disks` of the missing
`disk/ssp.py` ("dedupe-by-reference-count … reference-count decrements").
The disk LUs to delete are removed from the SSP's LU list, image LUs
whose reference count has reached zero are removed with them, and the
SSP entity is updated once; the second component counts the updates. -/
def delete_disks (ssp_lus storage_elems : List LU) : List LU × Nat :=
  let remaining := remove_named_lus ssp_lus storage_elems
  let final := remaining.filter (fun lu =>
    if lu.lu_type = LUType.Image then
      decide (0 < image_ref_count remaining lu)
    else true)
  (final, 1)

/-- Modelled from the spec: the name sanitizer used for LU names by the
missing `disk/ssp.py` (`_get_disk_name`): hyphens become underscores
(the tests name `boot_instance_name` from instance `instance-name`). -/
def sanitize_name (s : String) : String :=
  String.mk (s.data.map (fun c => if c = Char.ofNat 45 then Char.ofNat 95 else c))

/-- Modelled from the spec: `_get_disk_name` of the missing
`disk/ssp.py` — the disk type, an underscore, then the sanitized name. -/
def get_disk_name (disk_type nm : String) : String :=
  disk_type ++ "_" ++ sanitize_name nm

/-- Modelled from the spec: a VIOS SCSI mapping as read by the missing
`disk/ssp.py` — only its backing storage LU. -/
structure SCSIMapping where
  backing_storage : LU
deriving DecidableEq, Repr

/-- Modelled from the spec: a Virtual I/O Server with its SCSI
mappings. -/
structure VIOS where
  name : String
  uuid : String
  scsi_mappings : List SCSIMapping
deriving DecidableEq, Repr

/-- Modelled from the spec: the mapping of a VIOS whose backing storage
is the instance's boot LU (named `boot_` plus the sanitized instance
name), if the VIOS has one. -/
def boot_mapping (inst_name : String) (vios : VIOS) : Option SCSIMapping :=
  vios.scsi_mappings.find?
    (fun m => m.backing_storage.name == get_disk_name "boot" inst_name)

/-- Modelled from the spec: `instance_disk_iter` of the missing
`disk/ssp.py` ("VIOS-mapping iteration") — walk the cluster's VIOSes in
order, yielding the boot LU and the VIOS for each VIOS that maps it. -/
def instance_disk_iter (vioses : List VIOS) (inst_name : String) :
    List (LU × VIOS) :=
  vioses.filterMap (fun vios =>
    (boot_mapping inst_name vios).map (fun m => (m.backing_storage, vios)))

/-- Modelled from the spec: `connect_instance_disk_to_mgmt` of the
missing `disk/ssp.py` — map the instance's boot LU to the management
partition from the first VIOS that has it, returning the (LU, VIOS)
pair; `InstanceDiskMappingFailed` (`Except.error ()`) when no VIOS maps
it.  The second component counts `add_vscsi_mapping` calls. -/
def connect_instance_disk_to_mgmt (vioses : List VIOS)
    (inst_name : String) : Except Unit (LU × VIOS) × Nat :=
  match instance_disk_iter vioses inst_name with
  | [] => (Except.error (), 0)
  | p :: _ => (Except.ok p, 1)

/-- Modelled from the spec: a Cluster wrapper (only its name is needed
here). -/
structure Cluster where
  name : String
deriving DecidableEq, Repr, Inhabited

/-- Errors raised during the cluster discovery of the missing
`disk/ssp.py` (`nova_powervm.virt.powervm.exception`). -/
inductive ClusterFetchErr
  | ClusterNotFoundByName
  | TooManyClustersFound
  | NoConfigNoClusterFound
  | NoConfigTooManyClusters
deriving DecidableEq, Repr

/-- Modelled from the spec: the "cluster discovery" of the missing
`disk/ssp.py` (`_fetch_cluster`, run at adapter initialization).  With a
configured (non-empty) cluster name the search-by-name results are
consulted; without one the Cluster feed is; zero or several results
raise the four errors of the claim, one result is used. -/
def fetch_cluster (cluster_name : String)
    (search_results feed_results : List Cluster) :
    Except ClusterFetchErr Cluster :=
  if cluster_name ≠ "" then
    match search_results with
    | [] => Except.error ClusterFetchErr.ClusterNotFoundByName
    | [c] => Except.ok c
    | _ :: _ :: _ => Except.error ClusterFetchErr.TooManyClustersFound
  else
    match feed_results with
    | [] => Except.error ClusterFetchErr.NoConfigNoClusterFound
    | [c] => Except.ok c
    | _ :: _ :: _ => Except.error ClusterFetchErr.NoConfigTooManyClusters

/-- Modelled from the spec: the image metadata fields the missing
`disk/ssp.py` reads in `create_disk_from_image` — name, id, byte size. -/
structure ImageMeta where
  name : String
  img_id : String
  size : Nat
deriving DecidableEq, Repr

/-- Modelled from the spec: outcome of `create_disk_from_image` — whether
a new image LU was uploaded and with what byte size, the image LU used
as clone source, the boot LU created and returned, and the SSP's LU list
afterwards. -/
structure CreateDiskOut where
  uploaded : Bool
  upload_size : Option Nat
  image_lu : LU
  boot_lu : LU
  result_lus : List LU
deriving Repr

/-- Modelled from the spec: the linear lookup for an existing image LU by
name among the SSP's logical units. -/
def find_image_lu (lus : List LU) (image_lu_name : String) : Option LU :=
  lus.find? (fun lu =>
    decide (lu.lu_type = LUType.Image) && lu.name == image_lu_name)

/-- Modelled from the spec: `SSPDiskAdapter.create_disk_from_image` of
the missing `disk/ssp.py` ("LU clone creation … shared-LU clone").  If
the SSP already holds an image LU named `image_` plus the sanitized
image name it is reused; otherwise a new image LU of the image's byte
size is uploaded first.  Either way the boot disk is created as a linked
clone named `boot_` plus the sanitized instance name and returned.  The
UDIDs the platform assigns to new LUs are the parameters `new_img_udid`
and `new_boot_udid`. -/
def create_disk_from_image (ssp_lus : List LU) (img : ImageMeta)
    (inst_name : String) (new_img_udid new_boot_udid : String) :
    CreateDiskOut :=
  let image_lu_name := get_disk_name "image" img.name
  let boot_lu_name := get_disk_name "boot" inst_name
  match find_image_lu ssp_lus image_lu_name with
  | some image_lu =>
    let boot_lu : LU :=
      { name := boot_lu_name, udid := new_boot_udid,
        lu_type := LUType.Disk, cloned_from_udid := some image_lu.udid }
    { uploaded := false, upload_size := none, image_lu := image_lu,
      boot_lu := boot_lu, result_lus := ssp_lus ++ [boot_lu] }
  | none =>
    let image_lu : LU :=
      { name := image_lu_name, udid := new_img_udid,
        lu_type := LUType.Image, cloned_from_udid := none }
    let boot_lu : LU :=
      { name := boot_lu_name, udid := new_boot_udid,
        lu_type := LUType.Disk, cloned_from_udid := some image_lu.udid }
    { uploaded := true, upload_size := some img.size, image_lu := image_lu,
      boot_lu := boot_lu, result_lus := ssp_lus ++ [image_lu, boot_lu] }

/- ---------------------------------------------------------------------
   Theorems: C3, C4
   --------------------------------------------------------------------- -/

/-- C3: cluster discovery at adapter initialization — with a configured
name, zero search hits raise ClusterNotFoundByName and several raise
TooManyClustersFound; without a name, an empty Cluster feed raises
NoConfigNoClusterFound and several entries raise
NoConfigTooManyClusters; in every non-error case the single cluster
found is used. -/
theorem fetch_cluster_spec (cluster_name : String)
    (search_results feed_results : List Cluster) :
    (cluster_name ≠ "" → search_results = [] →
      fetch_cluster cluster_name search_results feed_results =
        Except.error ClusterFetchErr.ClusterNotFoundByName) ∧
    (cluster_name ≠ "" → 1 < search_results.length →
      fetch_cluster cluster_name search_results feed_results =
        Except.error ClusterFetchErr.TooManyClustersFound) ∧
    (∀ c, cluster_name ≠ "" → search_results = [c] →
      fetch_cluster cluster_name search_results feed_results =
        Except.ok c) ∧
    (cluster_name = "" → feed_results = [] →
      fetch_cluster cluster_name search_results feed_results =
        Except.error ClusterFetchErr.NoConfigNoClusterFound) ∧
    (cluster_name = "" → 1 < feed_results.length →
      fetch_cluster cluster_name search_results feed_results =
        Except.error ClusterFetchErr.NoConfigTooManyClusters) ∧
    (∀ c, cluster_name = "" → feed_results = [c] →
      fetch_cluster cluster_name search_results feed_results =
        Except.ok c) := by
  refine ⟨?_, ?_, ?_, ?_, ?_, ?_⟩
  · intro hn hs
    simp [fetch_cluster, hn, hs]
  · intro hn hs
    match search_results with
    | [] => simp at hs
    | [c] => simp at hs
    | a :: b :: tl => simp [fetch_cluster, hn]
  · intro c hn hs
    simp [fetch_cluster, hn, hs]
  · intro hn hf
    simp [fetch_cluster, hn, hf]
  · intro hn hf
    match feed_results with
    | [] => simp at hf
    | [c] => simp at hf
    | a :: b :: tl => simp [fetch_cluster, hn]
  · intro c hn hf
    simp [fetch_cluster, hn, hf]

/-- C3 witness: a configured name with a single search hit yields that
cluster. -/
theorem fetch_cluster_spec_witness :
    fetch_cluster "clust1" [{ name := "clust1" }] [] =
      Except.ok { name := "clust1" } :=
  (fetch_cluster_spec "clust1" [{ name := "clust1" }] []).2.2.1
    { name := "clust1" } (by decide) rfl

/-- C4: `create_disk_from_image` reuses an existing image LU named
`image_` plus the sanitized image name without uploading, and otherwise
uploads a new image LU of the image's byte size first; in both cases the
boot disk is created as a linked clone of that image LU named `boot_`
plus the sanitized instance name, and the new clone LU is the one
returned. -/
theorem create_disk_from_image_spec (ssp_lus : List LU) (img : ImageMeta)
    (inst_name : String) (new_img_udid new_boot_udid : String) :
    (∀ l, find_image_lu ssp_lus (get_disk_name "image" img.name) = some l →
      (create_disk_from_image ssp_lus img inst_name new_img_udid
        new_boot_udid).uploaded = false ∧
      (create_disk_from_image ssp_lus img inst_name new_img_udid
        new_boot_udid).upload_size = none ∧
      (create_disk_from_image ssp_lus img inst_name new_img_udid
        new_boot_udid).image_lu = l) ∧
    (find_image_lu ssp_lus (get_disk_name "image" img.name) = none →
      (create_disk_from_image ssp_lus img inst_name new_img_udid
        new_boot_udid).uploaded = true ∧
      (create_disk_from_image ssp_lus img inst_name new_img_udid
        new_boot_udid).upload_size = some img.size ∧
      (create_disk_from_image ssp_lus img inst_name new_img_udid
        new_boot_udid).image_lu.name =
          get_disk_name "image" img.name ∧
      (create_disk_from_image ssp_lus img inst_name new_img_udid
        new_boot_udid).image_lu.lu_type = LUType.Image) ∧
    (create_disk_from_image ssp_lus img inst_name new_img_udid
      new_boot_udid).boot_lu.name = get_disk_name "boot" inst_name ∧
    (create_disk_from_image ssp_lus img inst_name new_img_udid
      new_boot_udid).boot_lu.lu_type = LUType.Disk ∧
    (create_disk_from_image ssp_lus img inst_name new_img_udid
      new_boot_udid).boot_lu.cloned_from_udid =
        some (create_disk_from_image ssp_lus img inst_name new_img_udid
          new_boot_udid).image_lu.udid ∧
    (create_disk_from_image ssp_lus img inst_name new_img_udid
      new_boot_udid).boot_lu ∈
        (create_disk_from_image ssp_lus img inst_name new_img_udid
          new_boot_udid).result_lus := by
  cases hf : find_image_lu ssp_lus (get_disk_name "image" img.name) with
  | none =>
    refine ⟨?_, ?_, ?_, ?_, ?_, ?_⟩ <;>
      simp [create_disk_from_image, hf]
  | some l =>
    refine ⟨?_, ?_, ?_, ?_, ?_, ?_⟩ <;>
      simp [create_disk_from_image, hf]

/-- C4 witness: creating the boot disk when the image LU already exists
reuses it without an upload. -/
theorem create_disk_from_image_spec_witness :
    (create_disk_from_image
      [{ name := "image_image_name", udid := "27img", lu_type := LUType.Image,
          cloned_from_udid := none }]
      { name := "image-name", img_id := "image-id", size := 2147483648 }
      "instance-name" "27new" "27boot").uploaded = false ∧
    (create_disk_from_image
      [{ name := "image_image_name", udid := "27img", lu_type := LUType.Image,
          cloned_from_udid := none }]
      { name := "image-name", img_id := "image-id", size := 2147483648 }
      "instance-name" "27new" "27boot").image_lu =
      { name := "image_image_name", udid := "27img", lu_type := LUType.Image,
        cloned_from_udid := none } := by
  have h := (create_disk_from_image_spec
    [{ name := "image_image_name", udid := "27img", lu_type := LUType.Image,
        cloned_from_udid := none }]
    { name := "image-name", img_id := "image-id", size := 2147483648 }
    "instance-name" "27new" "27boot").1
    { name := "image_image_name", udid := "27img", lu_type := LUType.Image,
      cloned_from_udid := none } (by decide)
  exact ⟨h.1, h.2.2⟩

/- ---------------------------------------------------------------------
   Theorems: C1, C2
   --------------------------------------------------------------------- -/

/-- Positivity of a `countP` is an `any`. -/
theorem decide_pos_countP {α : Type} (p : α → Bool) (l : List α) :
    decide (0 < l.countP p) = l.any p := by
  cases hany : l.any p
  · have hz : l.countP p = 0 := by
      rw [List.countP_eq_zero]
      intro a ha
      have hfa := List.any_eq_false.mp hany a ha
      simp [hfa]
    simp [hz]
  · have hpos : 0 < l.countP p := by
      rw [List.countP_pos_iff]
      exact List.any_eq_true.mp hany
    simp [hpos]

/-- An `any` over a `filter` is an `any` of the conjunction. -/
theorem any_filter_eq {α : Type} (p q : α → Bool) (l : List α) :
    (l.filter p).any q = l.any (fun a => p a && q a) := by
  induction l with
  | nil => rfl
  | cons a as ih =>
    by_cases h : p a <;> simp [h, List.filter_cons, ih]

/-- C1: `delete_disks` leaves the SSP's logical-unit list equal to the
original list minus the removed disk LUs and minus every image LU from
which no remaining disk LU is cloned (reference count zero), and it
performs exactly one update of the SSP entity. -/
theorem delete_disks_spec (ssp_lus storage_elems : List LU) :
    (delete_disks ssp_lus storage_elems).1 =
      ssp_lus.filter (fun lu =>
        (! storage_elems.any (fun r => r.udid == lu.udid)) &&
        (if lu.lu_type = LUType.Image then
          ssp_lus.any (fun d =>
            (! storage_elems.any (fun r => r.udid == d.udid)) &&
            (decide (d.lu_type = LUType.Disk) && is_clone_of d lu))
        else true)) ∧
    (delete_disks ssp_lus storage_elems).2 = 1 := by
  refine ⟨?_, rfl⟩
  show (remove_named_lus ssp_lus storage_elems).filter _ = _
  unfold remove_named_lus image_ref_count
  rw [List.filter_filter]
  apply List.filter_congr
  intro lu _
  by_cases himg : lu.lu_type = LUType.Image
  · simp only [himg, if_true, if_pos]
    rw [decide_pos_countP, any_filter_eq]
    by_cases hk : storage_elems.any (fun r => r.udid == lu.udid) <;>
      simp [hk, Bool.and_comm]
  · by_cases hk : storage_elems.any (fun r => r.udid == lu.udid) <;>
      simp [himg, hk]

/-- Concrete check of `delete_disks` against the scenario of the in-tree
test `test_delete_disks`: two images, three clones; deleting `dsk_lu3`
and `dsk_lu5` also removes the then-unreferenced `img_lu2`. -/
theorem delete_disks_test_scenario :
    delete_disks
      [{ name := "img_lu1", udid := "xxabc1231", lu_type := LUType.Image,
          cloned_from_udid := none },
        { name := "img_lu2", udid := "xxabc1232", lu_type := LUType.Image,
          cloned_from_udid := none },
        { name := "dsk_lu3", udid := "xxabc1233", lu_type := LUType.Disk,
          cloned_from_udid := some "yyabc1231" },
        { name := "dsk_lu4", udid := "xxabc1234", lu_type := LUType.Disk,
          cloned_from_udid := some "yyabc1231" },
        { name := "dsk_lu5", udid := "xxabc1235", lu_type := LUType.Disk,
          cloned_from_udid := some "yyabc1232" }]
      [{ name := "dsk_lu3", udid := "xxabc1233", lu_type := LUType.Disk,
          cloned_from_udid := some "yyabc1231" },
        { name := "dsk_lu5", udid := "xxabc1235", lu_type := LUType.Disk,
          cloned_from_udid := some "yyabc1232" }] =
    ([{ name := "img_lu1", udid := "xxabc1231", lu_type := LUType.Image,
          cloned_from_udid := none },
        { name := "dsk_lu4", udid := "xxabc1234", lu_type := LUType.Disk,
          cloned_from_udid := some "yyabc1231" }], 1) := by
  decide

/-- C2: `connect_instance_disk_to_mgmt` maps the boot LU from the first
VIOS (in cluster order) holding a SCSI mapping whose backing storage is
the instance's boot LU and returns that (LU, VIOS) pair with exactly one
mapping performed; with no such VIOS it raises
InstanceDiskMappingFailed and performs no mapping. -/
theorem connect_instance_disk_to_mgmt_spec (vioses : List VIOS)
    (inst_name : String) :
    (vioses.find? (fun v => (boot_mapping inst_name v).isSome) = none →
      connect_instance_disk_to_mgmt vioses inst_name =
        (Except.error (), 0)) ∧
    (∀ v m,
      vioses.find? (fun v => (boot_mapping inst_name v).isSome) = some v →
      boot_mapping inst_name v = some m →
      connect_instance_disk_to_mgmt vioses inst_name =
        (Except.ok (m.backing_storage, v), 1)) := by
  induction vioses with
  | nil =>
    exact ⟨fun _ => rfl, fun v m hv _ => by simp at hv⟩
  | cons a tl ih =>
    cases hb : boot_mapping inst_name a with
    | some m0 =>
      refine ⟨?_, ?_⟩
      · intro hnone
        rw [List.find?_cons_of_pos _ (by simp [hb])] at hnone
        exact absurd hnone (by simp)
      · intro v m hv hm
        rw [List.find?_cons_of_pos _ (by simp [hb])] at hv
        have hva : a = v := by
          injection hv
        subst hva
        rw [hb] at hm
        have hmm : m0 = m := by
          injection hm
        subst hmm
        simp [connect_instance_disk_to_mgmt, instance_disk_iter,
          List.filterMap_cons, hb]
    | none =>
      refine ⟨?_, ?_⟩
      · intro hnone
        rw [List.find?_cons_of_neg _ (by simp [hb])] at hnone
        have hres := ih.1 hnone
        simpa [connect_instance_disk_to_mgmt, instance_disk_iter,
          List.filterMap_cons, hb] using hres
      · intro v m hv hm
        rw [List.find?_cons_of_neg _ (by simp [hb])] at hv
        have hres := ih.2 v m hv hm
        simpa [connect_instance_disk_to_mgmt, instance_disk_iter,
          List.filterMap_cons, hb] using hres

/-- C2 witness: the first VIOS has no matching mapping, the second does;
its pair is returned with one mapping performed. -/
theorem connect_instance_disk_to_mgmt_spec_witness :
    connect_instance_disk_to_mgmt
      [{ name := "vios3", uuid := "u3",
          scsi_mappings := [{ backing_storage :=
            { name := "other_disk", udid := "27o", lu_type := LUType.Disk,
              cloned_from_udid := none } }] },
        { name := "vios2", uuid := "u2",
          scsi_mappings := [{ backing_storage :=
            { name := "boot_my_instance_name", udid := "274d",
              lu_type := LUType.Disk, cloned_from_udid := none } }] }]
      "my-instance-name" =
      (Except.ok
        ({ name := "boot_my_instance_name", udid := "274d",
            lu_type := LUType.Disk, cloned_from_udid := none },
          { name := "vios2", uuid := "u2",
            scsi_mappings := [{ backing_storage :=
              { name := "boot_my_instance_name", udid := "274d",
                lu_type := LUType.Disk, cloned_from_udid := none } }] }),
        1) :=
  (connect_instance_disk_to_mgmt_spec
    [{ name := "vios3", uuid := "u3",
        scsi_mappings := [{ backing_storage :=
          { name := "other_disk", udid := "27o", lu_type := LUType.Disk,
            cloned_from_udid := none } }] },
      { name := "vios2", uuid := "u2",
        scsi_mappings := [{ backing_storage :=
          { name := "boot_my_instance_name", udid := "274d",
            lu_type := LUType.Disk, cloned_from_udid := none } }] }]
    "my-instance-name").2
    { name := "vios2", uuid := "u2",
      scsi_mappings := [{ backing_storage :=
        { name := "boot_my_instance_name", udid := "274d",
          lu_type := LUType.Disk, cloned_from_udid := none } }] }
    { backing_storage :=
      { name := "boot_my_instance_name", udid := "274d",
        lu_type := LUType.Disk, cloned_from_udid := none } }
    (by decide) (by decide)
